import Mathlib

/-!
Verification of the index persistence layer (src/index/io.rs) of faiss-rs.

The Rust layer under verification bridges a foreign runtime (the faiss
engine, reached through faiss-sys) and managed memory. We embed the layer
shallowly: the foreign runtime is an explicit `World` value holding the
native index heap, the filesystem and the foreign-allocated serialization
buffers; each Rust function becomes a Lean function threading the world.
Machinery that lives outside the given source tree (the error wrapper,
IoFlags, the index handle type, the boundary primitives) is modelled from
the specification, as marked on each definition.
-/

set_option autoImplicit false

/-- Observable state of one native index instance: its dimensionality and
its element count, the attributes the persistence layer round-trips. -/
structure IndexState where
  d : Nat
  ntotal : Nat
deriving DecidableEq, Repr

/-- Modelled from the spec: the structured error taxonomy of section 7.
`badFilePath` is the path-validation failure; `native` carries the foreign
status code and a best-effort message. -/
inductive Error where
  | badFilePath : Error
  | native : Int → String → Error
deriving DecidableEq, Repr

/-- Modelled from the spec: the IndexHandle value, an opaque native
identity (the raw pointer into the foreign heap) owned by the caller. -/
structure IndexImpl where
  inner_ptr : Nat
deriving DecidableEq, Repr

/-- Modelled from the spec: `FromInnerPtr::from_inner_ptr`, the
wrap_handle constructor of section 4.5 establishing ownership of a raw
out-parameter pointer. -/
def IndexImpl.from_inner_ptr (ptr : Nat) : IndexImpl :=
  { inner_ptr := ptr }

/-- Modelled from the spec: `IoFlags`, a value type wrapping an integer
bitmask over two independent bit groups (section 4.2 and section 6). -/
structure IoFlags where
  code : Nat
deriving DecidableEq, Repr

/-- Modelled from the spec: the default configuration, resident and
read-write; section 6 fixes it to the zero code. -/
def IoFlags.MEM_RESIDENT : IoFlags := { code := 0 }

/-- Modelled from the spec: the memory-mapped storage-strategy flag, a
specific nonzero bit value (section 6). -/
def IoFlags.MEM_MAP : IoFlags := { code := 1 }

/-- Modelled from the spec: the read-only access-mode flag, a specific
nonzero bit value in a bit group independent of the storage strategy
(section 6). -/
def IoFlags.READ_ONLY : IoFlags := { code := 2 }

/-- Modelled from the spec: flag composition ORs the underlying bit
patterns (section 4.2). This is the BitOr instance of the Rust type. -/
def IoFlags.or (a b : IoFlags) : IoFlags :=
  { code := a.code ||| b.code }

/-- Modelled from the spec: the lossless conversion of an IoFlags value to
the single integer code the boundary call expects (`io_flags.0 as c_int`,
`IoFlags::MEM_RESIDENT.into()`). -/
def IoFlags.toCode (f : IoFlags) : Nat :=
  f.code

/-- The foreign runtime and operating system as seen through the boundary:
the heap of native index objects addressed by raw pointer, the filesystem
mapping path byte strings to file contents, the foreign-allocated
serialization buffers that are currently live (allocated and not yet
released), and the next fresh address. -/
structure World where
  heap : List (Nat × IndexState)
  fs : List (List Nat × List Nat)
  foreignBufs : List (Nat × List Nat)
  nextPtr : Nat
deriving DecidableEq, Repr

/-- The persisted form of an index as produced by the engine: a byte
sequence determined by the index state. The exact format is dictated by
the engine and opaque to the layer under verification; the model keeps it
injective so that the round-trip guarantee of section 6 holds. -/
def encodeIndex (s : IndexState) : List Nat :=
  [s.d, s.ntotal]

/-- Decoding of the persisted form back into an index state; fails on
byte sequences the engine did not produce. -/
def decodeIndex : List Nat → Option IndexState
  | [d0, n0] => some { d := d0, ntotal := n0 }
  | _ => none

/-- Reading `size` bytes of foreign memory at address `addr`, the model of
`std::slice::from_raw_parts(bytes, size)` on a foreign-allocated buffer. -/
def readBuf (w : World) (addr : Nat) (size : Nat) : List Nat :=
  ((w.foreignBufs.lookup addr).getD []).take size

/-- Modelled from the spec: the boundary primitive
`serialize-index(handle) -> status, out_bytes_ptr, out_size, out_capacity`
of section 6. On success it allocates a foreign buffer holding the
persisted form of the index and reports its address, byte count and
capacity; the buffer stays live until explicitly released. -/
def serialize_index (w : World) (ptr : Nat) :
    World × Int × Nat × Nat × Nat :=
  match w.heap.lookup ptr with
  | none => (w, 1, 0, 0, 0)
  | some s =>
    let bytes := encodeIndex s
    let addr := w.nextPtr
    ({ w with
        foreignBufs := (addr, bytes) :: w.foreignBufs,
        nextPtr := w.nextPtr + 1 },
      0, addr, bytes.length, bytes.length)

/-- Modelled from the spec: the boundary primitive
`deserialize-index(bytes_ptr, size) -> status, out_handle` of section 6.
It reads `size` bytes from the given buffer, reconstructs the index in the
foreign heap and writes the fresh handle into the out-parameter. -/
def deserialize_index (bytes : List Nat) (size : Nat) (w : World) :
    World × Int × Nat :=
  match decodeIndex (bytes.take size) with
  | none => (w, 1, 0)
  | some s =>
    ({ w with
        heap := (w.nextPtr, s) :: w.heap,
        nextPtr := w.nextPtr + 1 },
      0, w.nextPtr)

/-- Modelled from the spec: the boundary primitive
`write-index-to-path(handle, path) -> status` of section 6. On success it
creates or overwrites the file at the target path with the persisted form
of the index; the native index object itself is only read. -/
def faiss_write_index_fname (w : World) (ptr : Nat) (path : List Nat) :
    World × Int :=
  match w.heap.lookup ptr with
  | none => (w, 1)
  | some s => ({ w with fs := (path, encodeIndex s) :: w.fs }, 0)

/-- Modelled from the spec: the boundary primitive
`read-index-from-path(path, io_flags) -> status, out_handle` of section 6.
It reads the file at the path, reconstructs the index in the foreign heap
and writes the fresh handle into the out-parameter; the flags select the
load strategy and do not change the observable result. -/
def faiss_read_index_fname (w : World) (path : List Nat) (_flags : Nat) :
    World × Int × Nat :=
  match w.fs.lookup path with
  | none => (w, 1, 0)
  | some bytes =>
    match decodeIndex bytes with
    | none => (w, 1, 0)
    | some s =>
      ({ w with
          heap := (w.nextPtr, s) :: w.heap,
          nextPtr := w.nextPtr + 1 },
        0, w.nextPtr)

/-- Modelled from the spec: the error-description facility of the
boundary, the source of the human-readable message attached to a native
error (section 4.5). -/
def errorMessage (_code : Int) : String :=
  "native call failed"

/-- Modelled from the spec: `faiss_try`, the Result Wrapper check of
section 4.5: status 0 is success, any other status becomes a structured
`NativeError` carrying the foreign code and a message. -/
def faiss_try (code : Int) : Except Error Unit :=
  if code = 0 then Except.ok () else Except.error (Error.native code (errorMessage code))

/-- Modelled from the spec: `CString::new` as used for path validation
(section 4.1): a caller string converts to a native path string exactly
when it contains no NUL byte; otherwise the conversion fails. -/
def cstring_new (bytes : List Nat) : Option (List Nat) :=
  if bytes.contains 0 then none else some bytes

/-- The Result Wrapper of section 4.5 on a handle-producing boundary call:
check the status, then wrap the out-parameter pointer into an owned
handle. This factors the common tail of `read_index`,
`read_index_with_flags` and `deserialize` in the source. -/
def wrapRead (r : World × Int × Nat) : Except Error IndexImpl × World :=
  match faiss_try r.2.1 with
  | Except.error e => (Except.error e, r.1)
  | Except.ok _ => (Except.ok (IndexImpl.from_inner_ptr r.2.2), r.1)

/-- The Result Wrapper of section 4.5 on a unit-producing boundary call:
check the status and return unit on success, the common tail of
`write_index` in the source. -/
def wrapWrite (r : World × Int) : Except Error Unit × World :=
  match faiss_try r.2 with
  | Except.error e => (Except.error e, r.1)
  | Except.ok _ => (Except.ok (), r.1)

/-- Embedding of `write_index` (src/index/io.rs lines 22 to 35): convert
the file name to a C string, rejecting embedded NUL with `BadFilePath`,
then invoke the boundary write primitive and check its status. -/
def write_index (w : World) (index : IndexImpl) (file_name : List Nat) :
    Except Error Unit × World :=
  match cstring_new file_name with
  | none => (Except.error Error.badFilePath, w)
  | some f => wrapWrite (faiss_write_index_fname w index.inner_ptr f)

/-- Embedding of `serialize` (src/index/io.rs lines 37 to 52): invoke the
boundary serialize primitive with out-parameters for the buffer pointer,
size and capacity, check the status, then read `size` bytes at the
returned pointer and copy them into an owned vector. The source never
frees the foreign buffer (its TODO comment), so the buffer stays in
`foreignBufs`. -/
def serialize (w : World) (index : IndexImpl) :
    Except Error (List Nat) × World :=
  let r := serialize_index w index.inner_ptr
  let w' := r.1
  let status := r.2.1
  let bytesPtr := r.2.2.1
  let size := r.2.2.2.1
  match faiss_try status with
  | Except.error e => (Except.error e, w')
  | Except.ok _ =>
    let bytes := readBuf w' bytesPtr size
    (Except.ok bytes, w')

/-- Embedding of `read_index` (src/index/io.rs lines 60 to 75): convert
the file name to a C string, rejecting embedded NUL, then invoke the
boundary read primitive with the default flags
(`IoFlags::MEM_RESIDENT.into()`) and wrap the out-parameter pointer. -/
def read_index (w : World) (file_name : List Nat) :
    Except Error IndexImpl × World :=
  match cstring_new file_name with
  | none => (Except.error Error.badFilePath, w)
  | some f => wrapRead (faiss_read_index_fname w f IoFlags.MEM_RESIDENT.toCode)

/-- Embedding of `deserialize` (src/index/io.rs lines 77 to 85): take a
borrowed byte slice, pass its address and its length to the boundary
deserialize primitive and wrap the out-parameter pointer. -/
def deserialize (bytes : List Nat) (w : World) :
    Except Error IndexImpl × World :=
  let size := bytes.length
  wrapRead (deserialize_index bytes size w)

/-- Embedding of `read_index_with_flags` (src/index/io.rs lines 95 to
110): like `read_index` but passing the integer code of an explicit
IoFlags value (`io_flags.0 as c_int`). -/
def read_index_with_flags (w : World) (file_name : List Nat) (io_flags : IoFlags) :
    Except Error IndexImpl × World :=
  match cstring_new file_name with
  | none => (Except.error Error.badFilePath, w)
  | some f => wrapRead (faiss_read_index_fname w f io_flags.code)

/-- Caller-side memory for modelling a borrowed slice: addresses mapped
to the byte sequences stored there. -/
abbrev Mem := List (Nat × List Nat)

/-- The byte sequence a borrowed slice at address `addr` denotes. -/
def lookupBytes (mem : Mem) (addr : Nat) : List Nat :=
  (mem.lookup addr).getD []

/-- The call-site view of `deserialize(&bytes)`: the caller lends the
slice at `addr`; the callee reads the bytes stored there and the memory
comes back to the caller unchanged. -/
def deserialize_call (mem : Mem) (addr : Nat) (w : World) :
    Mem × (Except Error IndexImpl × World) :=
  (mem, deserialize (lookupBytes mem addr) w)

/-- A sample world for concrete evaluation: one native index of dimension
8 holding 5 elements at address 0, empty filesystem, no live foreign
buffers. -/
def wexample : World :=
  { heap := [(0, { d := 8, ntotal := 5 })], fs := [], foreignBufs := [], nextPtr := 1 }

/-- A handle to the sample index of `wexample`. -/
def iexample : IndexImpl :=
  { inner_ptr := 0 }

/-- Helper: the world returned by `wrapWrite` is the world the boundary
call produced, on success and on failure alike. -/
theorem wrapWrite_world (p : World × Int) : (wrapWrite p).2 = p.1 := by
  unfold wrapWrite
  split <;> rfl

/-- Helper: the world returned by `serialize` is the world the boundary
serialize primitive produced. -/
theorem serialize_world (w : World) (idx : IndexImpl) :
    (serialize w idx).2 = (serialize_index w idx.inner_ptr).1 := by
  simp only [serialize]
  split <;> rfl

/-- Helper: the boundary write primitive never changes the native heap. -/
theorem faiss_write_index_fname_heap (w : World) (ptr : Nat) (path : List Nat) :
    ((faiss_write_index_fname w ptr path).1).heap = w.heap := by
  unfold faiss_write_index_fname
  rcases w.heap.lookup ptr with _ | s <;> rfl

/-- Helper: the boundary serialize primitive never changes the native
heap. -/
theorem serialize_index_heap (w : World) (ptr : Nat) :
    ((serialize_index w ptr).1).heap = w.heap := by
  unfold serialize_index
  rcases w.heap.lookup ptr with _ | s <;> rfl

/-- Claim C1: round-trip via buffer. For every index handle whose native
object holds state `s`, `serialize` succeeds with some bytes, and
`deserialize` of those bytes succeeds and yields a handle whose native
object has the same element count and dimension as `s`. -/
theorem serialize_deserialize_roundtrip (w : World) (idx : IndexImpl) (s : IndexState)
    (h : w.heap.lookup idx.inner_ptr = some s) :
    ∃ (bytes : List Nat) (w' : World) (idx2 : IndexImpl) (w'' : World),
      serialize w idx = (Except.ok bytes, w') ∧
      deserialize bytes w' = (Except.ok idx2, w'') ∧
      w''.heap.lookup idx2.inner_ptr = some s := by
  refine ⟨encodeIndex s,
      { w with
          foreignBufs := (w.nextPtr, encodeIndex s) :: w.foreignBufs,
          nextPtr := w.nextPtr + 1 },
      { inner_ptr := w.nextPtr + 1 },
      { heap := (w.nextPtr + 1, s) :: w.heap,
        fs := w.fs,
        foreignBufs := (w.nextPtr, encodeIndex s) :: w.foreignBufs,
        nextPtr := w.nextPtr + 2 },
      ?_, ?_, ?_⟩
  · simp [serialize, serialize_index, h, faiss_try, readBuf, List.lookup, List.take_length]
  · simp [deserialize, deserialize_index, wrapRead, faiss_try, List.take_length,
      decodeIndex, encodeIndex, IndexImpl.from_inner_ptr]
  · simp [List.lookup]

/-- Witness for C1 at the sample world: one index of dimension 8 with 5
elements round-trips through the buffer codec. -/
theorem serialize_deserialize_roundtrip_witness :
    wexample.heap.lookup iexample.inner_ptr = some { d := 8, ntotal := 5 } ∧
    ∃ (bytes : List Nat) (w' : World) (idx2 : IndexImpl) (w'' : World),
      serialize wexample iexample = (Except.ok bytes, w') ∧
      deserialize bytes w' = (Except.ok idx2, w'') ∧
      w''.heap.lookup idx2.inner_ptr = some { d := 8, ntotal := 5 } :=
  ⟨by decide,
    serialize_deserialize_roundtrip wexample iexample { d := 8, ntotal := 5 } (by decide)⟩

/-- Claim C2: round-trip via file. For every handle on a non-empty native
index with state `s` and every NUL-free path, `write_index` succeeds and
`read_index` on the same path succeeds, yielding a handle whose native
object has the same element count and dimension as `s`. -/
theorem write_read_roundtrip (w : World) (idx : IndexImpl) (s : IndexState) (path : List Nat)
    (hptr : w.heap.lookup idx.inner_ptr = some s) (hne : 0 < s.ntotal)
    (hpath : 0 ∉ path) :
    ∃ (w' : World) (idx2 : IndexImpl) (w'' : World),
      write_index w idx path = (Except.ok (), w') ∧
      read_index w' path = (Except.ok idx2, w'') ∧
      w''.heap.lookup idx2.inner_ptr = some s := by
  refine ⟨{ w with fs := (path, encodeIndex s) :: w.fs },
      { inner_ptr := w.nextPtr },
      { heap := (w.nextPtr, s) :: w.heap,
        fs := (path, encodeIndex s) :: w.fs,
        foreignBufs := w.foreignBufs,
        nextPtr := w.nextPtr + 1 },
      ?_, ?_, ?_⟩
  · simp [write_index, cstring_new, hpath, wrapWrite, faiss_write_index_fname, hptr, faiss_try]
  · simp [read_index, cstring_new, hpath, wrapRead, faiss_read_index_fname, List.lookup,
      decodeIndex, encodeIndex, faiss_try, IndexImpl.from_inner_ptr]
  · simp [List.lookup]

/-- Witness for C2 at the sample world: the 5-element index of dimension
8 written to path byte 97 and read back keeps its state. -/
theorem write_read_roundtrip_witness :
    (wexample.heap.lookup iexample.inner_ptr = some { d := 8, ntotal := 5 } ∧
      0 < (5 : Nat) ∧ (0 : Nat) ∉ ([97] : List Nat)) ∧
    ∃ (w' : World) (idx2 : IndexImpl) (w'' : World),
      write_index wexample iexample [97] = (Except.ok (), w') ∧
      read_index w' [97] = (Except.ok idx2, w'') ∧
      w''.heap.lookup idx2.inner_ptr = some { d := 8, ntotal := 5 } :=
  ⟨⟨by decide, by decide, by decide⟩,
    write_read_roundtrip wexample iexample { d := 8, ntotal := 5 } [97]
      (by decide) (by decide) (by decide)⟩

/-- Claim C3 evidence: on a successful call `serialize` copies the
foreign buffer into an owned byte sequence but the foreign-allocated
buffer stays live after the call returns; at the sample world the call
succeeds yet the set of live foreign buffers has grown, the leak the
source marks with its TODO comment. -/
theorem serialize_leaves_buffer_live :
    (serialize wexample iexample).1 = Except.ok [8, 5] ∧
    wexample.foreignBufs = [] ∧
    ((serialize wexample iexample).2).foreignBufs = [(1, [8, 5])] :=
  ⟨rfl, rfl, rfl⟩

/-- Claim C4: path validation. A path containing a NUL byte makes
`write_index`, `read_index` and `read_index_with_flags` fail with
`BadFilePath` and leave the world untouched, so no boundary call and no
filesystem access happens; a NUL-free path converts successfully and the
call proceeds to the boundary primitive wrapped by the result wrapper. -/
theorem path_nul_validation (w : World) (idx : IndexImpl) (path : List Nat) (flags : IoFlags) :
    (0 ∈ path →
      write_index w idx path = (Except.error Error.badFilePath, w) ∧
      read_index w path = (Except.error Error.badFilePath, w) ∧
      read_index_with_flags w path flags = (Except.error Error.badFilePath, w)) ∧
    (0 ∉ path →
      cstring_new path = some path ∧
      write_index w idx path = wrapWrite (faiss_write_index_fname w idx.inner_ptr path) ∧
      read_index w path = wrapRead (faiss_read_index_fname w path IoFlags.MEM_RESIDENT.toCode) ∧
      read_index_with_flags w path flags =
        wrapRead (faiss_read_index_fname w path flags.code)) := by
  constructor
  · intro h
    refine ⟨?_, ?_, ?_⟩ <;>
      simp [write_index, read_index, read_index_with_flags, cstring_new, h]
  · intro h
    refine ⟨?_, ?_, ?_, ?_⟩ <;>
      simp [write_index, read_index, read_index_with_flags, cstring_new, h]

/-- Witness for C4: the path consisting of one NUL byte is rejected with
`BadFilePath` and the world is unchanged; the NUL-free path byte 97
passes validation. -/
theorem path_nul_validation_witness :
    ((0 : Nat) ∈ ([0] : List Nat) ∧
      write_index wexample iexample [0] = (Except.error Error.badFilePath, wexample)) ∧
    ((0 : Nat) ∉ ([97] : List Nat) ∧ cstring_new [97] = some [97]) :=
  ⟨⟨by decide,
      ((path_nul_validation wexample iexample [0] IoFlags.MEM_RESIDENT).1 (by decide)).1⟩,
    ⟨by decide,
      ((path_nul_validation wexample iexample [97] IoFlags.MEM_RESIDENT).2 (by decide)).1⟩⟩

/-- Claim C5: the status check. `faiss_try` succeeds exactly on status 0;
every nonzero status becomes a `NativeError` carrying the foreign code
and a message; and an operation result is never a handle alongside an
error, shown for `deserialize`. -/
theorem faiss_try_check (c : Int) :
    (faiss_try c = Except.ok () ↔ c = 0) ∧
    (c ≠ 0 → faiss_try c = Except.error (Error.native c (errorMessage c))) ∧
    (∀ (bytes : List Nat) (w : World) (i : IndexImpl) (e : Error),
      ¬((deserialize bytes w).1 = Except.ok i ∧ (deserialize bytes w).1 = Except.error e)) := by
  refine ⟨?_, ?_, ?_⟩
  · unfold faiss_try
    split <;> simp_all
  · intro h
    simp [faiss_try, h]
  · intro bytes w i e hpair
    have h1 := hpair.1
    have h2 := hpair.2
    rw [h1] at h2
    simp at h2

/-- Witness for C5: status 0 passes the check and status 3 produces the
structured native error with code 3. -/
theorem faiss_try_check_witness :
    (faiss_try 0 = Except.ok () ↔ (0 : Int) = 0) ∧
    ((3 : Int) ≠ 0 ∧ faiss_try 3 = Except.error (Error.native 3 (errorMessage 3))) :=
  ⟨(faiss_try_check 0).1, by decide, (faiss_try_check 3).2.1 (by decide)⟩

/-- Claim C6: `read_index` behaves identically to `read_index_with_flags`
at the default flags, the resident read-write configuration: same
success or error outcome and the same resulting handle and world. -/
theorem read_index_eq_default_flags (w : World) (file_name : List Nat) :
    read_index w file_name = read_index_with_flags w file_name IoFlags.MEM_RESIDENT :=
  rfl

/-- Claim C7: IoFlags composition is associative and commutative with the
default resident read-write value as the zero identity, and combining the
memory-mapped and read-only flags yields a value distinct from either
flag alone and from the default. -/
theorem ioflags_composition :
    (∀ a b c : IoFlags, (a.or b).or c = a.or (b.or c)) ∧
    (∀ a b : IoFlags, a.or b = b.or a) ∧
    (∀ a : IoFlags, IoFlags.MEM_RESIDENT.or a = a ∧ a.or IoFlags.MEM_RESIDENT = a) ∧
    IoFlags.MEM_MAP.or IoFlags.READ_ONLY ≠ IoFlags.MEM_MAP ∧
    IoFlags.MEM_MAP.or IoFlags.READ_ONLY ≠ IoFlags.READ_ONLY ∧
    IoFlags.MEM_MAP.or IoFlags.READ_ONLY ≠ IoFlags.MEM_RESIDENT := by
  refine ⟨?_, ?_, ?_, by decide, by decide, by decide⟩
  · intro a b c
    simp [IoFlags.or, Nat.lor_assoc]
  · intro a b
    simp [IoFlags.or, Nat.lor_comm]
  · intro a
    cases a
    simp [IoFlags.or, IoFlags.MEM_RESIDENT]

/-- Claim C8: on every successful call, the byte sequence `serialize`
returns has length equal to the size out-parameter reported by the
boundary serialize primitive, and its content is the byte-for-byte copy
of the foreign buffer that primitive allocated. -/
theorem serialize_copies_reported_bytes (w : World) (idx : IndexImpl) (s : IndexState)
    (h : w.heap.lookup idx.inner_ptr = some s) :
    ∃ (w' : World) (addr size : Nat) (bytes : List Nat),
      serialize_index w idx.inner_ptr = (w', 0, addr, size, size) ∧
      serialize w idx = (Except.ok bytes, w') ∧
      bytes.length = size ∧
      w'.foreignBufs.lookup addr = some bytes ∧
      bytes = readBuf w' addr size := by
  refine ⟨{ w with
        foreignBufs := (w.nextPtr, encodeIndex s) :: w.foreignBufs,
        nextPtr := w.nextPtr + 1 },
      w.nextPtr, (encodeIndex s).length, encodeIndex s, ?_, ?_, rfl, ?_, ?_⟩
  · simp [serialize_index, h]
  · simp [serialize, serialize_index, h, faiss_try, readBuf, List.lookup, List.take_length]
  · simp [List.lookup]
  · simp [readBuf, List.lookup, List.take_length]

/-- Witness for C8 at the sample world: serialization of the 5-element
index reports size 2 and returns exactly the 2 bytes of the foreign
buffer. -/
theorem serialize_copies_reported_bytes_witness :
    wexample.heap.lookup iexample.inner_ptr = some { d := 8, ntotal := 5 } ∧
    ∃ (w' : World) (addr size : Nat) (bytes : List Nat),
      serialize_index wexample iexample.inner_ptr = (w', 0, addr, size, size) ∧
      serialize wexample iexample = (Except.ok bytes, w') ∧
      bytes.length = size ∧
      w'.foreignBufs.lookup addr = some bytes ∧
      bytes = readBuf w' addr size :=
  ⟨by decide,
    serialize_copies_reported_bytes wexample iexample { d := 8, ntotal := 5 } (by decide)⟩

/-- Claim C9: `deserialize` borrows its input slice. The caller memory
comes back unchanged, the boundary primitive receives exactly the bytes
of the slice together with their length, and the outcome depends only on
the byte values, not on the address they live at, so no reference to the
input persists past return. -/
theorem deserialize_borrow_frame (mem mem2 : Mem) (addr addr2 : Nat) (w : World)
    (h : lookupBytes mem addr = lookupBytes mem2 addr2) :
    (deserialize_call mem addr w).1 = mem ∧
    (deserialize_call mem addr w).2 =
      wrapRead (deserialize_index (lookupBytes mem addr) (lookupBytes mem addr).length w) ∧
    (deserialize_call mem addr w).2 = (deserialize_call mem2 addr2 w).2 := by
  refine ⟨rfl, rfl, ?_⟩
  simp [deserialize_call, h]

/-- Witness for C9: the same two bytes lent from address 0 and from
address 7 give back the caller memory unchanged and the same result. -/
theorem deserialize_borrow_frame_witness :
    lookupBytes [(0, [8, 5])] 0 = lookupBytes [(7, [8, 5])] 7 ∧
    (deserialize_call [(0, [8, 5])] 0 wexample).1 = [(0, [8, 5])] ∧
    (deserialize_call [(0, [8, 5])] 0 wexample).2 =
      (deserialize_call [(7, [8, 5])] 7 wexample).2 :=
  ⟨by decide,
    (deserialize_borrow_frame [(0, [8, 5])] [(7, [8, 5])] 0 7 wexample (by decide)).1,
    (deserialize_borrow_frame [(0, [8, 5])] [(7, [8, 5])] 0 7 wexample (by decide)).2.2⟩

/-- Claim C10: `write_index` and `serialize` only read the index. Whether
the call succeeds or fails, the native heap is unchanged, so the native
object behind the handle keeps its identity, its element count and its
dimension. -/
theorem write_serialize_preserve_index (w : World) (idx : IndexImpl) (path : List Nat) :
    ((write_index w idx path).2).heap = w.heap ∧
    ((serialize w idx).2).heap = w.heap ∧
    ((write_index w idx path).2).heap.lookup idx.inner_ptr = w.heap.lookup idx.inner_ptr ∧
    ((serialize w idx).2).heap.lookup idx.inner_ptr = w.heap.lookup idx.inner_ptr := by
  have hw : ((write_index w idx path).2).heap = w.heap := by
    unfold write_index
    rcases cstring_new path with _ | f
    · rfl
    · rw [wrapWrite_world, faiss_write_index_fname_heap]
  have hs : ((serialize w idx).2).heap = w.heap := by
    rw [serialize_world, serialize_index_heap]
  exact ⟨hw, hs, by rw [hw], by rw [hs]⟩
